import Mathlib

/-!
# Verification of the COVID dashboard notebook (`dashboards-2.ipynb`)

Shallow embedding of the notebook's data loading and of the
`GreatCovidDashboard` class built on `param.Parameterized`.

Modelling conventions:
* Dates are `Int`, counted in days (the notebook's `dt.date` values);
  `dt.date.today() - dt.timedelta(days=1)` becomes `today - 1`.
* A pandas dataframe is a `List` of row structures.  `Lat`/`Long` are kept
  as `Int` (only the aggregation `"first"` ever touches them, so the
  numeric type is irrelevant).
* The network fetch inside `get_covid_data` is modelled by passing the
  parsed raw table (`List RawRow`) as an argument.
* The `iso3166` package's country register is modelled by an association
  list `String × String` (display name to alpha-3 code) passed as an
  argument; `iso3166.countries.get` raising `KeyError` becomes an
  `Except`.
* `np.log10` (floating point) is modelled by an arbitrary function
  `Int → Int` passed as an argument: the claims about the map view concern
  which column is derived and what is left untouched, never the numeric
  value of the logarithm.
* Python methods that mutate `self` become functions
  `… → GreatCovidDashboard → GreatCovidDashboard × result`; calls to
  `self._logger.info` append to a `logs` field.
-/

/-- One parsed row of the remote CSV after the column renaming:
`Date, Country, State, Confirmed, Recovered, Deaths, Lat, Long`. -/
structure RawRow where
  date : Int
  country : String
  state : String
  confirmed : Int
  recovered : Int
  deaths : Int
  lat : Int
  long : Int
deriving Repr, DecidableEq

/-- One row of the aggregated dataframe produced by `get_covid_data`:
one row per (Country, Date) with summed counts, first coordinates and the
optional ISO alpha-3 code (`None` in Python is `none` here). -/
structure Row where
  country : String
  date : Int
  confirmed : Int
  recovered : Int
  deaths : Int
  lat : Int
  long : Int
  iso_alpha : Option String
deriving Repr, DecidableEq

/-- `iso3166.countries.get(country)` : raises `KeyError` when the display
name is not in the register (modelled by the association list `table`). -/
def iso3166_get (table : List (String × String)) (country : String) :
    Except Unit String :=
  match table.lookup country with
  | some alpha3 => Except.ok alpha3
  | none => Except.error ()

/-- Python source:
```python
def country_alpha3(country):
    try:
        return iso3166.countries.get(country).alpha3
    except KeyError:
        return None
``` -/
def country_alpha3 (table : List (String × String)) (country : String) :
    Option String :=
  match iso3166_get table country with
  | Except.ok alpha3 => some alpha3
  | Except.error _ => none

/-- Lexicographic comparison of strings as character lists (the order
`sorted` and pandas use on column values; spelled out so that it reduces
inside the kernel). -/
def charListLe : List Char → List Char → Bool
  | [], _ => true
  | _ :: _, [] => false
  | a :: as, b :: bs =>
    if a.toNat < b.toNat then true
    else if b.toNat < a.toNat then false
    else charListLe as bs

/-- `a ≤ b` on strings, via `charListLe`. -/
def StrLe (a b : String) : Prop := charListLe a.data b.data = true

instance : DecidableRel StrLe := fun a b => by
  unfold StrLe; infer_instance

/-- Comparison used for the sorted group keys of
`groupby(["Country", "Date"])` (pandas sorts group keys
lexicographically). -/
def KeyLe (a b : String × Int) : Prop :=
  (a.1 = b.1 ∧ a.2 ≤ b.2) ∨ (a.1 ≠ b.1 ∧ StrLe a.1 b.1)

instance : DecidableRel KeyLe := fun a b => by
  unfold KeyLe; infer_instance

/-- The distinct (Country, Date) keys of the raw table, in sorted order. -/
def groupKeys (raw : List RawRow) : List (String × Int) :=
  ((raw.map fun r => (r.country, r.date)).dedup).insertionSort KeyLe

/-- The rows of one (Country, Date) group, in source order. -/
def groupRows (raw : List RawRow) (k : String × Int) : List RawRow :=
  raw.filter fun r => r.country == k.1 && r.date == k.2

/-- Python source:
```python
def get_covid_data():
    covid_data_raw = pd.read_csv(..., parse_dates=["Date"])
        .rename(columns={"Province/State": "State", "Country/Region": "Country"})
    covid_data = (covid_data_raw
        .groupby(["Country", "Date"])
        .agg({"Confirmed": "sum", "Recovered": "sum", "Deaths": "sum",
              "Lat": "first", "Long": "first"})
        .reset_index()
        .assign(iso_alpha=lambda df: df["Country"].map(country_alpha3)))
    return covid_data
```
The fetch is modelled by the `raw` argument, the `iso3166` register by
`table`. -/
def get_covid_data (table : List (String × String)) (raw : List RawRow) :
    List Row :=
  (groupKeys raw).map fun k =>
    let g := groupRows raw k
    { country := k.1
      date := k.2
      confirmed := (g.map (·.confirmed)).sum
      recovered := (g.map (·.recovered)).sum
      deaths := (g.map (·.deaths)).sum
      lat := ((g.head?).map (·.lat)).getD 0
      long := ((g.head?).map (·.long)).getD 0
      iso_alpha := country_alpha3 table k.1 }

/-- The two values of `param.Selector(objects={"bar": px.bar, "line": px.line})`. -/
inductive PlotType where
  | bar
  | line
deriving Repr, DecidableEq

/-- The state of a `GreatCovidDashboard` instance: the five declared `param`
attributes, the mutable metadata `param` keeps for them (the `objects`
list of `countries` and the `bounds` of `map_plot_date`), the hidden
cached dataframe `_covid_data`, and the messages sent to the logger. -/
structure GreatCovidDashboard where
  countries : List String
  countries_objects : List String
  plotted_variable : String
  use_log_scale : Bool
  plot_type : PlotType
  map_plot_date : Int
  map_plot_date_bounds : Int × Int
  _covid_data : List Row
  logs : List String
deriving Repr, DecidableEq

/-- `df["Date"].min().date()` over the cached dataframe (0 if empty; the
notebook never reaches the empty case because loading precedes use). -/
def dateMin (rows : List Row) : Int := ((rows.map (·.date)).min?).getD 0

/-- `df["Date"].max().date()` over the cached dataframe (0 if empty). -/
def dateMax (rows : List Row) : Int := ((rows.map (·.date)).max?).getD 0

/-- `sorted(df["Country"].unique())`. -/
def sortedUniqueCountries (rows : List Row) : List String :=
  ((rows.map (·.country)).dedup).insertionSort StrLe

/-- Python source:
```python
def update_covid_data(self):
    self._logger.info("Loading COVID data")
    self._covid_data = get_covid_data()
    self.param.map_plot_date.bounds = (
        self._covid_data["Date"].min().date(),
        self._covid_data["Date"].max().date())
    self.param.countries.objects = sorted(self._covid_data["Country"].unique())
``` -/
def update_covid_data (table : List (String × String)) (raw : List RawRow)
    (d : GreatCovidDashboard) : GreatCovidDashboard :=
  let data := get_covid_data table raw
  { d with
    logs := d.logs ++ ["Loading COVID data"]
    _covid_data := data
    map_plot_date_bounds := (dateMin data, dateMax data)
    countries_objects := sortedUniqueCountries data }

/-- The staleness test of the `covid_data` property:
`self._covid_data["Date"].max() < (dt.date.today() - dt.timedelta(days=1))`.
On an empty frame pandas yields `NaT` and the comparison is false. -/
def isStale (d : GreatCovidDashboard) (today : Int) : Bool :=
  match (d._covid_data.map (·.date)).max? with
  | some m => decide (m < today - 1)
  | none => false

/-- Python source:
```python
@property
def covid_data(self):
    if self._covid_data["Date"].max() < (dt.date.today() - dt.timedelta(days=1)):
        self.update_covid_data()
    return self._covid_data
```
Returns the (possibly updated) state together with the dataframe the
caller sees. -/
def covid_data (table : List (String × String)) (raw : List RawRow)
    (today : Int) (d : GreatCovidDashboard) :
    GreatCovidDashboard × List Row :=
  if isStale d today then
    let d' := update_covid_data table raw d
    (d', d'._covid_data)
  else
    (d, d._covid_data)

/-- `df[v]` for the three metric columns (`plotted_variable` ranges over
exactly these). -/
def Row.col (r : Row) (v : String) : Int :=
  if v = "Confirmed" then r.confirmed
  else if v = "Recovered" then r.recovered
  else if v = "Deaths" then r.deaths
  else 0

/-- The figure returned by `self.plot_type(df, x="Date", y=..., color="Country",
log_y=...)`: the plotting call itself is external, so the result is the
description handed to it. -/
structure PlotResult where
  plot_type : PlotType
  rows : List Row
  x : String
  y : String
  color : String
  log_y : Bool
deriving Repr, DecidableEq

/-- Python source:
```python
@param.depends("countries", "plotted_variable", "use_log_scale", "plot_type")
def plot(self):
    return self.plot_type(
        self.covid_data.loc[self.covid_data["Country"].isin(self.countries)],
        x="Date", y=self.plotted_variable, color="Country",
        log_y=self.use_log_scale)
```
`self.covid_data` is the property, so the read may update the state. -/
def GreatCovidDashboard.plot (table : List (String × String))
    (raw : List RawRow) (today : Int) (d : GreatCovidDashboard) :
    GreatCovidDashboard × PlotResult :=
  let p := covid_data table raw today d
  (p.1,
    { plot_type := d.plot_type
      rows := p.2.filter fun r => d.countries.contains r.country
      x := "Date"
      y := d.plotted_variable
      color := "Country"
      log_y := d.use_log_scale })

/-- The distinct values of the `color="Country"` column of the dataframe
handed to plotly: plotly express draws exactly one trace (series) per
distinct color value. -/
def plotSeries (p : PlotResult) : List String :=
  (p.rows.map (·.country)).dedup

/-- The choropleth description produced by `map_plot`: the copy of the
date-filtered dataframe handed to `px.choropleth` (`assign` returns a new
frame, so the derived log column lives only here), and the name of the
column used for coloring. -/
structure MapPlotResult where
  rows : List Row
  derived : Option (String × List Int)
  locations : String
  color : String
deriving Repr, DecidableEq

/-- Python source:
```python
@param.depends("plotted_variable", "use_log_scale", "map_plot_date")
def map_plot(self):
    data = self.covid_data.loc[self.covid_data["Date"].dt.date == self.map_plot_date]
    if self.use_log_scale:
        color_column = f"log({self.plotted_variable})"
        data = data.assign(**{color_column: np.log10(data[self.plotted_variable])})
    else:
        color_column = self.plotted_variable
    return px.choropleth(data, locations="iso_alpha", color=color_column, ...)
```
`log10` stands for `np.log10`, applied elementwise by `assign`. -/
def GreatCovidDashboard.map_plot (log10 : Int → Int)
    (table : List (String × String)) (raw : List RawRow) (today : Int)
    (d : GreatCovidDashboard) : GreatCovidDashboard × MapPlotResult :=
  let p := covid_data table raw today d
  let data := p.2.filter fun r => r.date == d.map_plot_date
  if d.use_log_scale then
    let color_column := "log(" ++ d.plotted_variable ++ ")"
    (p.1,
      { rows := data
        derived := some (color_column, data.map fun r => log10 (r.col d.plotted_variable))
        locations := "iso_alpha"
        color := color_column })
  else
    (p.1,
      { rows := data
        derived := none
        locations := "iso_alpha"
        color := d.plotted_variable })

/-- The overview table built by `selected_day_numbers`: the filtered rows
(indexed by `Country`, showing the three metric columns) and the date of
the `"Situation on {date}"` headline. -/
structure SummaryTable where
  rows : List Row
  headline_date : Int
deriving Repr, DecidableEq

/-- Python source:
```python
@param.depends("map_plot_date", "countries")
def selected_day_numbers(self):
    data = self.covid_data.loc[
        (self.covid_data["Date"].dt.date == self.map_plot_date)
        & (self.covid_data["Country"].isin(self.countries))]
    return pn.Column(
        pn.pane.HTML(f"Situation on {self.map_plot_date}"),
        pn.pane.DataFrame(
            data.set_index("Country")[["Confirmed", "Recovered", "Deaths"]]))
``` -/
def GreatCovidDashboard.selected_day_numbers (table : List (String × String))
    (raw : List RawRow) (today : Int) (d : GreatCovidDashboard) :
    GreatCovidDashboard × SummaryTable :=
  let p := covid_data table raw today d
  (p.1,
    { rows := p.2.filter fun r =>
        r.date == d.map_plot_date && d.countries.contains r.country
      headline_date := d.map_plot_date })

/-- Python source:
```python
def __init__(self, **params):
    self._logger = logging.getLogger("GreatCovidDashboard")
    self._logger.info("Initializing")
    super().__init__(**params)
    self._covid_data = None
    self.update_covid_data()
    self.map_plot_date = self._covid_data["Date"].max().date()
    self._logger.info("Initialized")
```
The class-level defaults (`countries=["Czechia"]` with
`objects=["Czechia"]`, `plotted_variable="Confirmed"`,
`use_log_scale=False`, `plot_type` defaulting to the first selector entry
`bar`, `map_plot_date=dt.date(2020, 4, 1)` with bounds
`(dt.date(2020, 1, 1), dt.date(2020, 5, 1))`) are the state
`super().__init__` leaves behind; dates are counted in days from
2020-01-01, so 2020-04-01 is 91 and 2020-05-01 is 121. -/
def GreatCovidDashboard.init (table : List (String × String))
    (raw : List RawRow) : GreatCovidDashboard :=
  let d0 : GreatCovidDashboard :=
    { countries := ["Czechia"]
      countries_objects := ["Czechia"]
      plotted_variable := "Confirmed"
      use_log_scale := false
      plot_type := PlotType.bar
      map_plot_date := 91
      map_plot_date_bounds := (0, 121)
      _covid_data := []
      logs := ["Initializing"] }
  let d1 := update_covid_data table raw d0
  { d1 with
    map_plot_date := dateMax d1._covid_data
    logs := d1.logs ++ ["Initialized"] }

/-- An assignable value for one of the five declared `param` attributes. -/
inductive FieldValue where
  | countries (v : List String)
  | plotted_variable (v : String)
  | use_log_scale (v : Bool)
  | plot_type (v : PlotType)
  | map_plot_date (v : Int)
deriving Repr, DecidableEq

/-- The domain checks `param` performs on assignment, induced by the
declarations in the class body: a `ListSelector` value must be a subset of
its `objects`, a `Selector` value one of its `objects`, a `Boolean` any
boolean, and a `Date` within its `bounds`. -/
def validUpdate (d : GreatCovidDashboard) : FieldValue → Bool
  | FieldValue.countries v => v.all fun c => d.countries_objects.contains c
  | FieldValue.plotted_variable v =>
      (["Confirmed", "Recovered", "Deaths"] : List String).contains v
  | FieldValue.use_log_scale _ => true
  | FieldValue.plot_type _ => true
  | FieldValue.map_plot_date v =>
      decide (d.map_plot_date_bounds.1 ≤ v) && decide (v ≤ d.map_plot_date_bounds.2)

/-- Assignment to a declared `param` attribute
(`dashboard.map_plot_date = value` and the like): `param` validates the
value against the declared domain and raises `ValueError` without touching
the object when it is outside; the error is returned as `some message`. -/
def update (d : GreatCovidDashboard) (fv : FieldValue) :
    GreatCovidDashboard × Option String :=
  if validUpdate d fv then
    (match fv with
      | FieldValue.countries v => { d with countries := v }
      | FieldValue.plotted_variable v => { d with plotted_variable := v }
      | FieldValue.use_log_scale v => { d with use_log_scale := v }
      | FieldValue.plot_type v => { d with plot_type := v }
      | FieldValue.map_plot_date v => { d with map_plot_date := v },
     none)
  else
    (d, some "ValidationError")

/-- The five declared `param` fields (`Field` itself is taken by Mathlib). -/
inductive StateField where
  | countries
  | plotted_variable
  | use_log_scale
  | plot_type
  | map_plot_date
deriving Repr, DecidableEq

/-- The three reactive views of the class. -/
inductive View where
  | plot
  | map_plot
  | selected_day_numbers
deriving Repr, DecidableEq

/-- The `@param.depends(...)` declarations, verbatim from the source. -/
def viewDeps : View → List StateField
  | View.plot =>
      [StateField.countries, StateField.plotted_variable, StateField.use_log_scale, StateField.plot_type]
  | View.map_plot =>
      [StateField.plotted_variable, StateField.use_log_scale, StateField.map_plot_date]
  | View.selected_day_numbers =>
      [StateField.map_plot_date, StateField.countries]

/-- All reactive views, in source order. -/
def allViews : List View :=
  [View.plot, View.map_plot, View.selected_day_numbers]

/-- `param`/`panel` recompute dispatch: after an assignment to field `f`,
exactly the views whose `@param.depends` list names `f` are re-invoked. -/
def recomputedViews (f : StateField) : List View :=
  allViews.filter fun v => (viewDeps v).contains f

/-! ## Helper lemmas and concrete example data -/

/-- `country_alpha3` is exactly the association-list lookup: the
`try/except KeyError` turns a missing register entry into `none` instead
of an exception. -/
theorem country_alpha3_eq_lookup (table : List (String × String)) (c : String) :
    country_alpha3 table c = table.lookup c := by
  unfold country_alpha3 iso3166_get
  cases table.lookup c <;> rfl

/-- The (Country, Date) keys of the aggregated frame are the group keys. -/
theorem get_covid_data_map_key (table : List (String × String)) (raw : List RawRow) :
    (get_covid_data table raw).map (fun r => (r.country, r.date)) = groupKeys raw := by
  unfold get_covid_data
  rw [List.map_map]
  exact List.map_id _

/-- The group keys are pairwise distinct. -/
theorem groupKeys_nodup (raw : List RawRow) : (groupKeys raw).Nodup :=
  (List.perm_insertionSort _ _).nodup_iff.mpr (List.nodup_dedup _)

/-- One row per (country, date) pair in the aggregated frame. -/
theorem get_covid_data_keys_nodup (table : List (String × String)) (raw : List RawRow) :
    ((get_covid_data table raw).map fun r => (r.country, r.date)).Nodup := by
  rw [get_covid_data_map_key]
  exact groupKeys_nodup raw

/-- Filtering a frame with distinct (country, date) keys down to a single
date leaves pairwise-distinct countries. -/
theorem nodup_countries_of_filter (l : List Row) (D : Int) (cs : List String)
    (h : (l.map fun r => (r.country, r.date)).Nodup) :
    ((l.filter fun r => r.date == D && cs.contains r.country).map (·.country)).Nodup := by
  have hsub : List.Sublist (l.filter fun r => r.date == D && cs.contains r.country) l :=
    l.filter_sublist
  have hk : ((l.filter fun r => r.date == D && cs.contains r.country).map
      fun r => (r.country, r.date)).Nodup := h.sublist (hsub.map _)
  have hl : (l.filter fun r => r.date == D && cs.contains r.country).Nodup := hk.of_map
  apply hl.map_on
  intro x hx y hy hxy
  have hdx : x.date = D := by
    have := (List.mem_filter.mp hx).2
    simp only [Bool.and_eq_true, beq_iff_eq] at this
    exact this.1
  have hdy : y.date = D := by
    have := (List.mem_filter.mp hy).2
    simp only [Bool.and_eq_true, beq_iff_eq] at this
    exact this.1
  exact List.inj_on_of_nodup_map hk hx hy (by rw [hxy, hdx, hdy])

/-- A tiny `iso3166` register used in concrete examples. -/
def exTable : List (String × String) := [("Czechia", "CZE"), ("Slovakia", "SVK")]

/-- A concrete raw CSV: the spec's running example (dates are days from
2020-01-01, so 91 is 2020-04-01 with Czechia confirmed summing to 1000 and
Slovakia to 500). -/
def exRaw : List RawRow :=
  [ { date := 91, country := "Czechia", state := "", confirmed := 600,
      recovered := 1, deaths := 2, lat := 50, long := 15 },
    { date := 91, country := "Czechia", state := "Moravia", confirmed := 400,
      recovered := 1, deaths := 2, lat := 49, long := 14 },
    { date := 91, country := "Slovakia", state := "", confirmed := 500,
      recovered := 3, deaths := 4, lat := 48, long := 19 },
    { date := 92, country := "Czechia", state := "", confirmed := 1100,
      recovered := 5, deaths := 6, lat := 50, long := 15 } ]

/-- A dashboard whose cached dataset ends on day 5 and whose selected date
is 5: stale by day 100, and day 5 lies below the bounds any reload of
`exRaw` installs. -/
def exStaleDash : GreatCovidDashboard :=
  { countries := ["Czechia"]
    countries_objects := ["Czechia"]
    plotted_variable := "Confirmed"
    use_log_scale := false
    plot_type := PlotType.bar
    map_plot_date := 5
    map_plot_date_bounds := (0, 10)
    _covid_data :=
      [ { country := "Czechia", date := 5, confirmed := 1, recovered := 0,
          deaths := 0, lat := 50, long := 15, iso_alpha := some "CZE" } ]
    logs := [] }

/-- A dashboard whose cache already holds the aggregation of `exRaw`
(fresh on day 93, since the cache ends on day 92). -/
def exFreshDash : GreatCovidDashboard :=
  { countries := ["Czechia"]
    countries_objects := ["Czechia", "Slovakia"]
    plotted_variable := "Confirmed"
    use_log_scale := false
    plot_type := PlotType.bar
    map_plot_date := 91
    map_plot_date_bounds := (91, 92)
    _covid_data := get_covid_data exTable exRaw
    logs := [] }

/-! ## C1: selected-date bounds after a reload -/

/-- C1 counterexample: reloading `exStaleDash` (cache ending on day 5,
selected date 5) from `exRaw` (days 91–92) installs the new bounds
(91, 92) and a strictly later maximum date, yet the selected date stays 5
— strictly below the new lower bound, not clamped to it. -/
theorem reload_does_not_clamp_selected_date_cex :
    (update_covid_data exTable exRaw exStaleDash).map_plot_date_bounds = (91, 92) ∧
    dateMax exStaleDash._covid_data < dateMax (get_covid_data exTable exRaw) ∧
    (update_covid_data exTable exRaw exStaleDash).map_plot_date = 5 ∧
    (update_covid_data exTable exRaw exStaleDash).map_plot_date <
      (update_covid_data exTable exRaw exStaleDash).map_plot_date_bounds.1 := by
  decide

/-- C1 (amended): after every reload the selected-date parameter's bounds
become (min date, max date) of the newly loaded dataset, and the
previously selected date is retained unchanged — even when it lies outside
the new bounds, no clamping occurs (`update_covid_data` rewrites only the
bounds; the selected date is reset, to the new maximum, in `__init__`
alone). -/
theorem reload_updates_bounds_retains_selected_date
    (table : List (String × String)) (raw : List RawRow) (d : GreatCovidDashboard) :
    (update_covid_data table raw d).map_plot_date_bounds =
      (dateMin (get_covid_data table raw), dateMax (get_covid_data table raw)) ∧
    (update_covid_data table raw d).map_plot_date = d.map_plot_date :=
  ⟨rfl, rfl⟩

/-! ## C3: idempotence of fresh reads -/

/-- C3: when the cached dataset's maximum date `m` is not more than one
day older than the current date, reading `covid_data` returns the cache
unchanged and reading it twice gives identical data with no load in
between (the state — its `logs` included — is exactly the original). -/
theorem covid_data_read_idempotent_when_fresh
    (table : List (String × String)) (raw : List RawRow) (today : Int)
    (d : GreatCovidDashboard) (m : Int)
    (hm : (d._covid_data.map (·.date)).max? = some m)
    (hfresh : today - 1 ≤ m) :
    covid_data table raw today d = (d, d._covid_data) ∧
    covid_data table raw today (covid_data table raw today d).1 = (d, d._covid_data) := by
  have hst : isStale d today = false := by
    unfold isStale
    rw [hm]
    simp only [decide_eq_false_iff_not]
    omega
  have h1 : covid_data table raw today d = (d, d._covid_data) := by
    simp [covid_data, hst]
  exact ⟨h1, by rw [h1]; exact h1⟩

/-- C3 witness: the fresh dashboard read on day 93. -/
theorem covid_data_read_idempotent_when_fresh_witness :
    (exFreshDash._covid_data.map (·.date)).max? = some 92 ∧ (93 : Int) - 1 ≤ 92 ∧
    (covid_data exTable exRaw 93 exFreshDash = (exFreshDash, exFreshDash._covid_data) ∧
      covid_data exTable exRaw 93 (covid_data exTable exRaw 93 exFreshDash).1 =
        (exFreshDash, exFreshDash._covid_data)) :=
  ⟨by decide, by decide,
    covid_data_read_idempotent_when_fresh exTable exRaw 93 exFreshDash 92 (by decide) (by decide)⟩

/-! ## C6: reload exactly on staleness -/

/-- C6: a `covid_data` read reloads exactly when the cached dataset's most
recent date `m` is more than one day older than the current date: the
reload (observable as the "Loading COVID data" log entry) happens iff
`m < today - 1`; a non-stale read returns the cache untouched, a stale
read returns the freshly loaded data. -/
theorem reload_iff_stale
    (table : List (String × String)) (raw : List RawRow) (today : Int)
    (d : GreatCovidDashboard) (m : Int)
    (hm : (d._covid_data.map (·.date)).max? = some m) :
    ((covid_data table raw today d).1.logs = d.logs ++ ["Loading COVID data"] ↔
      m < today - 1) ∧
    (¬ m < today - 1 → covid_data table raw today d = (d, d._covid_data)) ∧
    (m < today - 1 →
      covid_data table raw today d =
        (update_covid_data table raw d, (update_covid_data table raw d)._covid_data)) := by
  by_cases h : m < today - 1
  · have hst : isStale d today = true := by
      unfold isStale
      rw [hm]
      simpa
    refine ⟨?_, fun hc => absurd h hc, fun _ => ?_⟩
    · simp [covid_data, hst, update_covid_data, h]
    · simp [covid_data, hst]
  · have hst : isStale d today = false := by
      unfold isStale
      rw [hm]
      simp only [decide_eq_false_iff_not]
      exact h
    refine ⟨?_, fun _ => by simp [covid_data, hst], fun hc => absurd hc h⟩
    simp only [covid_data, hst, Bool.false_eq_true, if_false]
    constructor
    · intro hlogs
      exact absurd (congrArg List.length hlogs) (by simp)
    · intro hc
      exact absurd hc h

/-- C6 witness: on day 200 the fresh-dashboard cache (ending day 92) is
stale and the read reloads; the same cache read on day 93 is not. -/
theorem reload_iff_stale_witness :
    (exFreshDash._covid_data.map (·.date)).max? = some 92 ∧
    (((covid_data exTable exRaw 200 exFreshDash).1.logs =
        exFreshDash.logs ++ ["Loading COVID data"] ↔ (92 : Int) < 200 - 1) ∧
      (¬ (92 : Int) < 200 - 1 →
        covid_data exTable exRaw 200 exFreshDash = (exFreshDash, exFreshDash._covid_data)) ∧
      ((92 : Int) < 200 - 1 →
        covid_data exTable exRaw 200 exFreshDash =
          (update_covid_data exTable exRaw exFreshDash,
            (update_covid_data exTable exRaw exFreshDash)._covid_data))) :=
  ⟨by decide, reload_iff_stale exTable exRaw 200 exFreshDash 92 (by decide)⟩

/-! ## C2: purity of the view functions -/

/-- C2 counterexample: on day 100 the dashboard `exStaleDash` (cache
ending day 5) is stale, and merely invoking the time-series view replaces
the cached dataset, the date bounds and the country choice list — the view
functions are not pure on stale states. -/
theorem stale_view_mutates_state_cex :
    isStale exStaleDash 100 = true ∧
    (GreatCovidDashboard.plot exTable exRaw 100 exStaleDash).1._covid_data ≠
      exStaleDash._covid_data ∧
    (GreatCovidDashboard.plot exTable exRaw 100 exStaleDash).1.map_plot_date_bounds ≠
      exStaleDash.map_plot_date_bounds ∧
    (GreatCovidDashboard.plot exTable exRaw 100 exStaleDash).1.countries_objects ≠
      exStaleDash.countries_objects := by
  decide

/-- C2 (amended): on every dashboard state whose cached dataset is not
stale, the three view functions are pure: each returns the state exactly
as it was (cached dataset, bounds, choice lists and even logs unchanged),
and each result is a function of the current state and cached data alone
(the explicit right-hand sides mention nothing else — in particular not
the network data `raw`, the register `table` or the clock `today`).  On a
stale state the `covid_data` read inside a view reloads and updates the
state. -/
theorem views_pure_on_fresh_state (log10 : Int → Int)
    (table : List (String × String)) (raw : List RawRow) (today : Int)
    (d : GreatCovidDashboard) (h : isStale d today = false) :
    (GreatCovidDashboard.plot table raw today d).1 = d ∧
    (GreatCovidDashboard.map_plot log10 table raw today d).1 = d ∧
    (GreatCovidDashboard.selected_day_numbers table raw today d).1 = d ∧
    (GreatCovidDashboard.plot table raw today d).2 =
      { plot_type := d.plot_type
        rows := d._covid_data.filter fun r => d.countries.contains r.country
        x := "Date"
        y := d.plotted_variable
        color := "Country"
        log_y := d.use_log_scale } ∧
    (GreatCovidDashboard.selected_day_numbers table raw today d).2 =
      { rows := d._covid_data.filter fun r =>
          r.date == d.map_plot_date && d.countries.contains r.country
        headline_date := d.map_plot_date } ∧
    (GreatCovidDashboard.map_plot log10 table raw today d).2.rows =
      d._covid_data.filter fun r => r.date == d.map_plot_date := by
  refine ⟨?_, ?_, ?_, ?_, ?_, ?_⟩ <;>
    cases hls : d.use_log_scale <;>
      simp [GreatCovidDashboard.plot, GreatCovidDashboard.map_plot,
        GreatCovidDashboard.selected_day_numbers, covid_data, h, hls]

/-- C2 witness: the fresh dashboard on day 93. -/
theorem views_pure_on_fresh_state_witness :
    isStale exFreshDash 93 = false ∧
    ((GreatCovidDashboard.plot exTable exRaw 93 exFreshDash).1 = exFreshDash ∧
      (GreatCovidDashboard.map_plot (fun v => v) exTable exRaw 93 exFreshDash).1 = exFreshDash ∧
      (GreatCovidDashboard.selected_day_numbers exTable exRaw 93 exFreshDash).1 = exFreshDash ∧
      (GreatCovidDashboard.plot exTable exRaw 93 exFreshDash).2 =
        { plot_type := exFreshDash.plot_type
          rows := exFreshDash._covid_data.filter fun r =>
            exFreshDash.countries.contains r.country
          x := "Date"
          y := exFreshDash.plotted_variable
          color := "Country"
          log_y := exFreshDash.use_log_scale } ∧
      (GreatCovidDashboard.selected_day_numbers exTable exRaw 93 exFreshDash).2 =
        { rows := exFreshDash._covid_data.filter fun r =>
            r.date == exFreshDash.map_plot_date &&
              exFreshDash.countries.contains r.country
          headline_date := exFreshDash.map_plot_date } ∧
      (GreatCovidDashboard.map_plot (fun v => v) exTable exRaw 93 exFreshDash).2.rows =
        exFreshDash._covid_data.filter fun r => r.date == exFreshDash.map_plot_date) :=
  ⟨by decide, views_pure_on_fresh_state (fun v => v) exTable exRaw 93 exFreshDash (by decide)⟩

/-! ## C4: one series per selected country -/

/-- C4: on a non-stale state whose selection is a subset of the known
countries (the `objects` list `sorted(data["Country"].unique())` derived
from the cached data), the time-series plot contains exactly one series
per selected country and none for any other country: plotly draws one
trace per distinct value of the `color="Country"` column, and those
distinct values are precisely the selected countries, each once. -/
theorem plot_one_series_per_selected_country
    (table : List (String × String)) (raw : List RawRow) (today : Int)
    (d : GreatCovidDashboard) (hfresh : isStale d today = false)
    (hsub : ∀ c ∈ d.countries, c ∈ sortedUniqueCountries d._covid_data) :
    (plotSeries (GreatCovidDashboard.plot table raw today d).2).Nodup ∧
    ∀ c : String,
      c ∈ plotSeries (GreatCovidDashboard.plot table raw today d).2 ↔ c ∈ d.countries := by
  have hrows : (GreatCovidDashboard.plot table raw today d).2.rows =
      d._covid_data.filter fun r => d.countries.contains r.country := by
    simp [GreatCovidDashboard.plot, covid_data, hfresh]
  constructor
  · exact List.nodup_dedup _
  · intro c
    unfold plotSeries
    rw [hrows]
    simp only [List.mem_dedup, List.mem_map, List.mem_filter, List.elem_eq_mem, decide_eq_true_eq]
    constructor
    · rintro ⟨r, ⟨_, hcont⟩, rfl⟩
      exact hcont
    · intro hc
      have hsu := hsub c hc
      have hmem : c ∈ d._covid_data.map (·.country) := by
        have h1 : c ∈ (d._covid_data.map (·.country)).dedup :=
          (List.perm_insertionSort _ _).mem_iff.mp hsu
        exact List.mem_dedup.mp h1
      obtain ⟨r, hr, hrc⟩ := List.mem_map.mp hmem
      exact ⟨r, ⟨hr, by rw [hrc]; exact hc⟩, hrc⟩

/-- C4 witness: the spec's running example — with rows for Czechia
(confirmed summing to 1000 on day 91) and Slovakia (500), selecting only
Czechia yields the single series ["Czechia"]. -/
theorem plot_one_series_per_selected_country_witness :
    isStale exFreshDash 93 = false ∧
    (∀ c ∈ exFreshDash.countries, c ∈ sortedUniqueCountries exFreshDash._covid_data) ∧
    ((plotSeries (GreatCovidDashboard.plot exTable exRaw 93 exFreshDash).2).Nodup ∧
      ∀ c : String,
        c ∈ plotSeries (GreatCovidDashboard.plot exTable exRaw 93 exFreshDash).2 ↔
          c ∈ exFreshDash.countries) ∧
    plotSeries (GreatCovidDashboard.plot exTable exRaw 93 exFreshDash).2 = ["Czechia"] ∧
    ((GreatCovidDashboard.plot exTable exRaw 93 exFreshDash).2.rows.map fun r =>
      (r.date, r.confirmed)) = [(91, 1000), (92, 1100)] :=
  ⟨by decide, by decide,
    plot_one_series_per_selected_country exTable exRaw 93 exFreshDash (by decide) (by decide),
    by decide, by decide⟩

/-! ## C5: log scale only derives a display column -/

/-- C5: for every state, dataset and (modelled) `log10`, enabling
`use_log_scale` changes no stored metric value: the state `map_plot`
leaves behind has the same cached dataset as with the flag off, the rows
of the frame handed to `px.choropleth` are identical (their Confirmed,
Recovered and Deaths untouched) and equal to the date-filter of the cached
dataset, and the only difference is a derived column `log(<metric>)` —
living in the copied display frame, never in the cache — holding `log10`
of the selected metric, which becomes the coloring column; with the flag
off no derived column exists. -/
theorem log_scale_only_derives_display_column (log10 : Int → Int)
    (table : List (String × String)) (raw : List RawRow) (today : Int)
    (d : GreatCovidDashboard) :
    (GreatCovidDashboard.map_plot log10 table raw today
        { d with use_log_scale := true }).1._covid_data =
      (GreatCovidDashboard.map_plot log10 table raw today
        { d with use_log_scale := false }).1._covid_data ∧
    (GreatCovidDashboard.map_plot log10 table raw today
        { d with use_log_scale := true }).2.rows =
      (GreatCovidDashboard.map_plot log10 table raw today
        { d with use_log_scale := false }).2.rows ∧
    (GreatCovidDashboard.map_plot log10 table raw today
        { d with use_log_scale := true }).2.rows =
      (GreatCovidDashboard.map_plot log10 table raw today
          { d with use_log_scale := true }).1._covid_data.filter
        (fun r => r.date == d.map_plot_date) ∧
    (GreatCovidDashboard.map_plot log10 table raw today
        { d with use_log_scale := true }).2.derived =
      some ("log(" ++ d.plotted_variable ++ ")",
        (GreatCovidDashboard.map_plot log10 table raw today
            { d with use_log_scale := true }).2.rows.map
          fun r => log10 (r.col d.plotted_variable)) ∧
    (GreatCovidDashboard.map_plot log10 table raw today
        { d with use_log_scale := true }).2.color =
      "log(" ++ d.plotted_variable ++ ")" ∧
    (GreatCovidDashboard.map_plot log10 table raw today
        { d with use_log_scale := false }).2.derived = none := by
  have hst : isStale { d with use_log_scale := true } today = isStale d today := rfl
  have hst' : isStale { d with use_log_scale := false } today = isStale d today := rfl
  cases h : isStale d today <;>
    simp [GreatCovidDashboard.map_plot, covid_data, hst, hst', h, update_covid_data]

/-! ## C7: out-of-domain updates are rejected -/

/-- C7: assigning any value outside a declared domain is rejected with a
validation error and the state — every field of it — is returned exactly
as it was; a date below or above the current bounds, a selection
containing a country outside the choice list, and a metric outside the
three-value enum are all outside their domains. -/
theorem update_rejects_out_of_domain (d : GreatCovidDashboard) (fv : FieldValue)
    (h : validUpdate d fv = false) :
    update d fv = (d, some "ValidationError") ∧
    (∀ v : Int,
      (v < d.map_plot_date_bounds.1 ∨ d.map_plot_date_bounds.2 < v) →
        validUpdate d (FieldValue.map_plot_date v) = false) ∧
    (∀ (vs : List String) (c : String), c ∈ vs → c ∉ d.countries_objects →
      validUpdate d (FieldValue.countries vs) = false) ∧
    (∀ s : String, s ≠ "Confirmed" → s ≠ "Recovered" → s ≠ "Deaths" →
      validUpdate d (FieldValue.plotted_variable s) = false) := by
  refine ⟨by simp [update, h], ?_, ?_, ?_⟩
  · intro v hv
    rcases hv with hv | hv <;> simp [validUpdate] <;> omega
  · intro vs c hc hnc
    simp only [validUpdate, List.all_eq_false]
    exact ⟨c, hc, by simpa using hnc⟩
  · intro s h1 h2 h3
    simp [validUpdate, h1, h2, h3]

/-- C7 witness: day 1000 is outside the bounds (91, 92) of the fresh
dashboard and the assignment is rejected without touching the state. -/
theorem update_rejects_out_of_domain_witness :
    validUpdate exFreshDash (FieldValue.map_plot_date 1000) = false ∧
    (update exFreshDash (FieldValue.map_plot_date 1000) =
        (exFreshDash, some "ValidationError") ∧
      (∀ v : Int,
        (v < exFreshDash.map_plot_date_bounds.1 ∨
            exFreshDash.map_plot_date_bounds.2 < v) →
          validUpdate exFreshDash (FieldValue.map_plot_date v) = false) ∧
      (∀ (vs : List String) (c : String), c ∈ vs → c ∉ exFreshDash.countries_objects →
        validUpdate exFreshDash (FieldValue.countries vs) = false) ∧
      (∀ s : String, s ≠ "Confirmed" → s ≠ "Recovered" → s ≠ "Deaths" →
        validUpdate exFreshDash (FieldValue.plotted_variable s) = false)) :=
  ⟨by decide,
    update_rejects_out_of_domain exFreshDash (FieldValue.map_plot_date 1000) (by decide)⟩

/-! ## C8: ISO lookup failure is recovered locally -/

/-- A row without its `iso_alpha` field: what the loader produces
independently of the ISO register. -/
def stripIso (r : Row) : String × Int × Int × Int × Int × Int × Int :=
  (r.country, r.date, r.confirmed, r.recovered, r.deaths, r.lat, r.long)

/-- C8: for every country name the ISO alpha-3 lookup is recovered
locally: every produced row carries exactly the register lookup of its
country — `none` (Python `None`, an empty field) when the name is unknown,
the code when known — and everything else the loader produces is identical
whatever the register contains (even an empty one), so a failed lookup
never aborts or alters loading. -/
theorem iso_lookup_failure_recovered
    (table other : List (String × String)) (raw : List RawRow) (r : Row)
    (hr : r ∈ get_covid_data table raw) :
    r.iso_alpha = table.lookup r.country ∧
    (get_covid_data table raw).map stripIso =
      (get_covid_data other raw).map stripIso := by
  constructor
  · unfold get_covid_data at hr
    obtain ⟨k, hk, rfl⟩ := List.mem_map.mp hr
    exact country_alpha3_eq_lookup table k.1
  · unfold get_covid_data
    rw [List.map_map, List.map_map]
    rfl

/-- The raw table `exRaw` with one extra row for "Atlantis", a country
missing from the `exTable` register. -/
def exRaw2 : List RawRow :=
  exRaw ++
    [ { date := 92, country := "Atlantis", state := "", confirmed := 7,
        recovered := 0, deaths := 0, lat := 0, long := 0 } ]

/-- The aggregated row `get_covid_data` produces for Atlantis: its
`iso_alpha` is empty because the register lookup fails. -/
def exAtlantisRow : Row :=
  { country := "Atlantis", date := 92, confirmed := 7, recovered := 0,
    deaths := 0, lat := 0, long := 0, iso_alpha := none }

/-- C8 witness: loading `exRaw2` completes with an empty `iso_alpha` on
the Atlantis row, and the register-independent part of the output equals
the one produced with an empty register. -/
theorem iso_lookup_failure_recovered_witness :
    exAtlantisRow ∈ get_covid_data exTable exRaw2 ∧
    (exAtlantisRow.iso_alpha = exTable.lookup exAtlantisRow.country ∧
      (get_covid_data exTable exRaw2).map stripIso =
        (get_covid_data [] exRaw2).map stripIso) :=
  ⟨by decide,
    iso_lookup_failure_recovered exTable [] exRaw2 exAtlantisRow (by decide)⟩

/-! ## C9: at most one summary row per selected country -/

/-- C9: the aggregated dataset holds exactly one row per (country, date)
pair, and therefore — whenever the cached dataset has that shape, as every
load produces — the summary table's rows, filtered to the selected date
and countries, contain pairwise-distinct countries: at most one row per
selected country, whatever date and selection are current. -/
theorem summary_table_at_most_one_row_per_country
    (table : List (String × String)) (raw : List RawRow) (today : Int)
    (d : GreatCovidDashboard)
    (hnd : (d._covid_data.map fun r => (r.country, r.date)).Nodup) :
    (((GreatCovidDashboard.selected_day_numbers table raw today d).2.rows).map
      (·.country)).Nodup ∧
    ∀ (other : List (String × String)) (raw' : List RawRow),
      ((get_covid_data other raw').map fun r => (r.country, r.date)).Nodup := by
  refine ⟨?_, fun other raw' => get_covid_data_keys_nodup other raw'⟩
  cases h : isStale d today
  · have hrows : (GreatCovidDashboard.selected_day_numbers table raw today d).2.rows =
        d._covid_data.filter fun r =>
          r.date == d.map_plot_date && d.countries.contains r.country := by
      simp [GreatCovidDashboard.selected_day_numbers, covid_data, h]
    rw [hrows]
    exact nodup_countries_of_filter _ _ _ hnd
  · have hrows : (GreatCovidDashboard.selected_day_numbers table raw today d).2.rows =
        (get_covid_data table raw).filter fun r =>
          r.date == d.map_plot_date && d.countries.contains r.country := by
      simp [GreatCovidDashboard.selected_day_numbers, covid_data, h, update_covid_data]
    rw [hrows]
    exact nodup_countries_of_filter _ _ _ (get_covid_data_keys_nodup table raw)

/-- C9 witness: the fresh dashboard's summary on day 93. -/
theorem summary_table_at_most_one_row_per_country_witness :
    (exFreshDash._covid_data.map fun r => (r.country, r.date)).Nodup ∧
    ((((GreatCovidDashboard.selected_day_numbers exTable exRaw 93 exFreshDash).2.rows).map
        (·.country)).Nodup ∧
      ∀ (other : List (String × String)) (raw' : List RawRow),
        ((get_covid_data other raw').map fun r => (r.country, r.date)).Nodup) :=
  ⟨by decide,
    summary_table_at_most_one_row_per_country exTable exRaw 93 exFreshDash (by decide)⟩

/-! ## C10: dependency-declared recomputation -/

/-- C10: recomputation follows the `@param.depends` declarations exactly —
a view is re-invoked after an update to a field iff its declared
dependency list names that field; in particular an update to
`use_log_scale` recomputes the time-series and map views only, never the
summary table (declared on `map_plot_date` and `countries` alone), whose
output is indeed unaffected by the flag on every state and dataset. -/
theorem recompute_follows_declared_deps :
    (∀ (v : View) (f : StateField), v ∈ recomputedViews f ↔ f ∈ viewDeps v) ∧
    recomputedViews StateField.use_log_scale = [View.plot, View.map_plot] ∧
    View.selected_day_numbers ∉ recomputedViews StateField.use_log_scale ∧
    ∀ (table : List (String × String)) (raw : List RawRow) (today : Int)
      (d : GreatCovidDashboard) (b : Bool),
      (GreatCovidDashboard.selected_day_numbers table raw today
          { d with use_log_scale := b }).2 =
        (GreatCovidDashboard.selected_day_numbers table raw today d).2 := by
  refine ⟨fun v f => by cases v <;> cases f <;> decide, by decide, by decide, ?_⟩
  intro table raw today d b
  have hst : isStale { d with use_log_scale := b } today = isStale d today := rfl
  cases h : isStale d today <;>
    simp [GreatCovidDashboard.selected_day_numbers, covid_data, hst, h, update_covid_data]
